import Mathlib

/-!
Shallow embedding of the domain layer of the PHDCCI internship portal
(source: app.py).  The persisted SQLite store is modelled as three lists
(users, job posts, applications) plus the AUTOINCREMENT counters; each
domain function from the source becomes a pure function returning the
result the Python function returns together with the updated store.
SHA-256 password hashing (hashlib) is an external primitive and is
modelled as an explicit function parameter.
-/

namespace PHDCCI

/-- Row of the users table (app.py, init_db).  NULL text fields that the
source only ever reads or leaves unset are modelled as Option String. -/
structure User where
  username : String
  password_hash : String
  role : String
  email : String
  full_name : String
  organization : String
  created_at : String
  last_login : Option String
deriving DecidableEq, Repr

/-- Row of the job_posts table (app.py, init_db). -/
structure JobPost where
  id : Nat
  company : String
  title : String
  description : String
  location : String
  job_type : String
  duration : String
  stipend : String
  requirements : String
  deadline : String
  posted_at : String
  status : String
deriving DecidableEq, Repr

/-- Row of the applications table (app.py, init_db). -/
structure Application where
  id : Nat
  student : String
  job_id : Nat
  resume_path : String
  cover_letter : String
  skills : String
  applied_at : String
  status : String
  feedback : Option String
  reviewed_at : Option String
  reviewed_by : Option String
deriving DecidableEq, Repr

/-- The persisted store: the three tables plus the AUTOINCREMENT
counters of job_posts and applications. -/
structure DB where
  users : List User
  job_posts : List JobPost
  applications : List Application
  next_job_id : Nat
  next_app_id : Nat
deriving DecidableEq, Repr

/-- Character class of the local part of validate_email. -/
def isLocalChar (c : Char) : Bool :=
  c.isAlphanum || c == '.' || c == '_' || c == '%' || c == '+' || c == '-'

/-- Character class of the domain part of validate_email. -/
def isDomainChar (c : Char) : Bool :=
  c.isAlphanum || c == '.' || c == '-'

/-- Split a character list on every occurrence of the separator. -/
def splitOnChar (c : Char) : List Char → List (List Char)
  | [] => [[]]
  | x :: xs =>
    let r := splitOnChar c xs
    if x == c then [] :: r
    else
      match r with
      | [] => [[x]]
      | y :: ys => (x :: y) :: ys

/-- Rejoin the pieces of a dot-separated domain, dropping nothing. -/
def joinDots : List (List Char) → List Char
  | [] => []
  | [x] => x
  | x :: xs => x ++ '.' :: joinDots xs

/-- Full match of the regular expression of validate_email, without the
trailing-newline allowance of the dollar anchor: a nonempty local part,
one at sign, then a nonempty domain part, a dot, and a final part of at
least two ASCII letters.  Because the letters-only final part cannot
contain a dot, the dot consumed by the pattern is the last dot. -/
def emailCoreChars (cs : List Char) : Bool :=
  match splitOnChar '@' cs with
  | [lp, dp] =>
    decide (lp ≠ []) && lp.all isLocalChar &&
    (let parts := splitOnChar '.' dp
     decide (2 ≤ parts.length) &&
     (let tld := parts.getLastD []
      let hd := joinDots parts.dropLast
      decide (hd ≠ []) && hd.all isDomainChar &&
      decide (2 ≤ tld.length) && tld.all Char.isAlpha))
  | _ => false

/-- validate_email (app.py): re.match of the anchored pattern; the
dollar anchor also matches just before one final newline. -/
def validate_email (email : String) : Bool :=
  emailCoreChars email.toList ||
    (match email.toList.getLast? with
     | some c => c == '\n' && emailCoreChars email.toList.dropLast
     | none => false)

/-- register_user (app.py).  hash models hash_password (SHA-256); now
is the formatted current timestamp.  Returns the (success, message)
pair of the source together with the store after the call. -/
def register_user (hash : String → String)
    (username password role email full_name organization now : String)
    (db : DB) : (Bool × String) × DB :=
  if username = "" ∨ password = "" ∨ role = "" ∨ email = "" then
    ((false, "All required fields must be filled."), db)
  else if validate_email email = false then
    ((false, "Please enter a valid email address."), db)
  else if password.length < 8 then
    ((false, "Password must be at least 8 characters long."), db)
  else if db.users.any (fun u => u.username == username) then
    ((false, "Username already exists."), db)
  else if db.users.any (fun u => u.email == email) then
    ((false, "Email already registered."), db)
  else
    let newUser : User :=
      { username := username, password_hash := hash password, role := role,
        email := email, full_name := full_name, organization := organization,
        created_at := now, last_login := none }
    ((true, "Registration successful! You can now log in."),
     { db with users := db.users ++ [newUser] })

/-- authenticate_user (app.py).  The source SELECTs the row matching
username and password hash, and on success UPDATEs last_login and
returns the previously fetched row as a dict, password_hash included. -/
def authenticate_user (hash : String → String)
    (username password now : String) (db : DB) :
    (Option User × String) × DB :=
  if username = "" ∨ password = "" then
    ((none, "Username and password required."), db)
  else
    match db.users.find? (fun u =>
        u.username == username && u.password_hash == hash password) with
    | some u =>
      ((some u, "Login successful."),
       { db with users := db.users.map (fun v =>
           if v.username == username then { v with last_login := some now }
           else v) })
    | none => ((none, "Invalid username or password."), db)

/-- post_job (app.py): presence check on company, title, description,
then INSERT with posted_at = now and the schema default status Active. -/
def post_job (company title description location job_type duration
    stipend requirements deadline now : String) (db : DB) :
    (Bool × String) × DB :=
  if company = "" ∨ title = "" ∨ description = "" then
    ((false, "Company, title and description are required."), db)
  else
    let j : JobPost :=
      { id := db.next_job_id, company := company, title := title,
        description := description, location := location,
        job_type := job_type, duration := duration, stipend := stipend,
        requirements := requirements, deadline := deadline,
        posted_at := now, status := "Active" }
    ((true, "Job posted successfully (ID: " ++ toString db.next_job_id ++ ")."),
     { db with job_posts := db.job_posts ++ [j],
               next_job_id := db.next_job_id + 1 })

/-- Descending order on posted_at, the ORDER BY of get_jobs. -/
def postedDesc (a b : JobPost) : Prop := b.posted_at ≤ a.posted_at

instance : DecidableRel postedDesc := fun a b =>
  inferInstanceAs (Decidable (b.posted_at ≤ a.posted_at))

instance : IsTotal JobPost postedDesc :=
  ⟨fun a b => le_total b.posted_at a.posted_at⟩

instance : IsTrans JobPost postedDesc :=
  ⟨fun _ _ _ hab hbc => le_trans hbc hab⟩

/-- The WHERE clause of get_jobs: a row is kept when its status equals
the filter or the filter is the sentinel All; the company filter
applies only when the company argument is truthy (given and nonempty). -/
def jobRowFilter (company : Option String) (status : String) (db : DB) :
    List JobPost :=
  match company with
  | some c =>
    if c = "" then
      db.job_posts.filter (fun j => j.status == status || status == "All")
    else
      db.job_posts.filter (fun j =>
        j.company == c && (j.status == status || status == "All"))
  | none =>
    db.job_posts.filter (fun j => j.status == status || status == "All")

/-- get_jobs (app.py): the WHERE clause above, then ORDER BY posted_at
DESC, modelled by sorting with postedDesc. -/
def get_jobs (company : Option String) (status : String) (db : DB) :
    List JobPost :=
  (jobRowFilter company status db).insertionSort postedDesc

/-- get_jobs with its Python default argument status = Active. -/
def get_jobs_default (company : Option String) (db : DB) : List JobPost :=
  get_jobs company "Active" db

/-- get_job_by_id (app.py): fetchone on WHERE id = job_id. -/
def get_job_by_id (job_id : Nat) (db : DB) : Option JobPost :=
  db.job_posts.find? (fun j => j.id == job_id)

/-- The row inserted by apply_to_job: applied_at = now and the schema
defaults status Pending and NULL feedback and review fields. -/
def newApplication (appId : Nat) (student : String) (job_id : Nat)
    (resume_path cover_letter skills now : String) : Application :=
  { id := appId, student := student, job_id := job_id,
    resume_path := resume_path, cover_letter := cover_letter,
    skills := skills, applied_at := now, status := "Pending",
    feedback := none, reviewed_at := none, reviewed_by := none }

/-- apply_to_job (app.py): presence check (0 is the falsy job id), then
the duplicate-application check, then job existence, then job active;
on success the INSERT of the new Pending row. -/
def apply_to_job (student : String) (job_id : Nat)
    (resume_path cover_letter skills now : String) (db : DB) :
    (Bool × String) × DB :=
  if student = "" ∨ job_id = 0 then
    ((false, "Student and job ID are required."), db)
  else if db.applications.any (fun a =>
      a.student == student && a.job_id == job_id) then
    ((false, "You have already applied for this job."), db)
  else
    match db.job_posts.find? (fun j => j.id == job_id) with
    | none => ((false, "Job not found."), db)
    | some j =>
      if j.status ≠ "Active" then
        ((false, "This job is no longer accepting applications."), db)
      else
        ((true, "Application submitted successfully!"),
         { db with
           applications := db.applications ++
             [newApplication db.next_app_id student job_id resume_path
               cover_letter skills now],
           next_app_id := db.next_app_id + 1 })

/-- Row transformer of the UPDATE statement of
update_application_status: the matching row gets the new status,
feedback, reviewed_at = now and reviewed_by; other rows are kept. -/
def appSetReview (app_id : Nat) (status feedback reviewed_by now : String)
    (a : Application) : Application :=
  if a.id == app_id then
    { a with status := status, feedback := some feedback,
             reviewed_at := some now, reviewed_by := some reviewed_by }
  else a

/-- update_application_status (app.py): UPDATE of status, feedback,
reviewed_at = now and reviewed_by on WHERE id = app_id; a zero rowcount
(no such application) returns the error and leaves the store as is.
The source takes no actor and performs no permission check. -/
def update_application_status (app_id : Nat)
    (status feedback reviewed_by now : String) (db : DB) :
    (Bool × String) × DB :=
  if db.applications.any (fun a => a.id == app_id) then
    ((true, "Application status updated to " ++ status ++ "."),
     { db with applications :=
         db.applications.map (appSetReview app_id status feedback
           reviewed_by now) })
  else ((false, "Application not found."), db)

/-- Row transformer of the UPDATE statement of update_job_status. -/
def jobSetStatus (job_id : Nat) (status : String) (j : JobPost) : JobPost :=
  if j.id == job_id then { j with status := status } else j

/-- update_job_status (app.py): UPDATE of status on WHERE id = job_id;
a zero rowcount returns the error and leaves the store as is.  The
source takes no actor and performs no permission check. -/
def update_job_status (job_id : Nat) (status : String) (db : DB) :
    (Bool × String) × DB :=
  if db.job_posts.any (fun j => j.id == job_id) then
    ((true, "Job status updated to " ++ status ++ "."),
     { db with job_posts := db.job_posts.map (jobSetStatus job_id status) })
  else ((false, "Job not found."), db)

/-- The default admin row created by init_db (app.py). -/
def admin_user (hash : String → String) (now : String) : User :=
  { username := "admin", password_hash := hash "admin123", role := "Admin",
    email := "admin@phdcci.org", full_name := "", organization := "",
    created_at := now, last_login := none }

/-- init_db (app.py): fresh tables plus the default admin user. -/
def init_db (hash : String → String) (now : String) : DB :=
  { users := [admin_user hash now], job_posts := [], applications := [],
    next_job_id := 1, next_app_id := 1 }

/-- States of the store reachable from init_db through the mutating
domain operations of the source. -/
inductive Reachable (hash : String → String) : DB → Prop where
  | init (now : String) : Reachable hash (init_db hash now)
  | register (u p r e fn org now : String) (db : DB) :
      Reachable hash db →
      Reachable hash (register_user hash u p r e fn org now db).2
  | auth (u p now : String) (db : DB) :
      Reachable hash db →
      Reachable hash (authenticate_user hash u p now db).2
  | post (c t d loc jt dur sp req dl now : String) (db : DB) :
      Reachable hash db →
      Reachable hash (post_job c t d loc jt dur sp req dl now db).2
  | applyJob (s : String) (j : Nat) (rp cl sk now : String) (db : DB) :
      Reachable hash db →
      Reachable hash (apply_to_job s j rp cl sk now db).2
  | review (a : Nat) (st fb rb now : String) (db : DB) :
      Reachable hash db →
      Reachable hash (update_application_status a st fb rb now db).2
  | jobStatus (j : Nat) (st : String) (db : DB) :
      Reachable hash db →
      Reachable hash (update_job_status j st db).2

/-- At most one application row per (student, job_id) pair. -/
def apps_unique (db : DB) : Prop :=
  db.applications.Pairwise
    (fun a b => ¬(a.student = b.student ∧ a.job_id = b.job_id))

/-- Usernames are pairwise distinct across the users table. -/
def users_unique (db : DB) : Prop :=
  db.users.Pairwise (fun a b => a.username ≠ b.username)

/-- A concrete injective stand-in for the SHA-256 digest, used only to
instantiate the hash parameter in concrete examples. -/
def sampleHash (s : String) : String := "#" ++ s

/-- A student user for concrete examples. -/
def aliceUser : User :=
  { username := "alice", password_hash := sampleHash "password123",
    role := "Student", email := "a@x.com", full_name := "Alice",
    organization := "", created_at := "t0", last_login := none }

/-- The company user owning the example job. -/
def acmeUser : User :=
  { username := "acme", password_hash := sampleHash "acmepass9",
    role := "Company", email := "hr@acme.com", full_name := "",
    organization := "Acme", created_at := "t0", last_login := none }

/-- A company user that owns no job, for the permission examples. -/
def evilcoUser : User :=
  { username := "evilco", password_hash := sampleHash "evilpass9",
    role := "Company", email := "hr@evilco.com", full_name := "",
    organization := "Evilco", created_at := "t0", last_login := none }

/-- The example job posting, owned by acme. -/
def internJob : JobPost :=
  { id := 1, company := "acme", title := "Intern",
    description := "Internship role", location := "", job_type := "",
    duration := "", stipend := "", requirements := "", deadline := "",
    posted_at := "t1", status := "Active" }

/-- The example pending application of alice to the acme job. -/
def aliceApp : Application :=
  { id := 1, student := "alice", job_id := 1, resume_path := "",
    cover_letter := "", skills := "", applied_at := "t2",
    status := "Pending", feedback := none, reviewed_at := none,
    reviewed_by := none }

/-- Store with three users, one acme job and one pending application;
evilco is a Company that owns no job. -/
def dbReview : DB :=
  { users := [aliceUser, acmeUser, evilcoUser], job_posts := [internJob],
    applications := [aliceApp], next_job_id := 2, next_app_id := 2 }

/-- Store whose only user is a Student, with one job owned by the
absent company name ghost. -/
def dbNoAuthority : DB :=
  { users := [{ aliceUser with username := "mallory", email := "m@x.com" }],
    job_posts := [{ internJob with company := "ghost" }],
    applications := [], next_job_id := 2, next_app_id := 1 }

/-- Store with one job and no applications, for the apply examples. -/
def dbJob : DB :=
  { users := [aliceUser, acmeUser], job_posts := [internJob],
    applications := [], next_job_id := 2, next_app_id := 1 }

/-- A duplicate (student, job_id) pair makes apply fail first, before
any job lookup. -/
theorem apply_to_job_dup (db : DB) (s : String) (j : Nat)
    (rp cl sk now : String) (hs : s ≠ "") (hj : j ≠ 0)
    (hdup : db.applications.any
      (fun a => a.student == s && a.job_id == j) = true) :
    apply_to_job s j rp cl sk now db =
      ((false, "You have already applied for this job."), db) := by
  simp [apply_to_job, hs, hj, hdup]

/-- With no duplicate and no such job, apply fails with the job
not-found error. -/
theorem apply_to_job_nojob (db : DB) (s : String) (j : Nat)
    (rp cl sk now : String) (hs : s ≠ "") (hj : j ≠ 0)
    (hdup : db.applications.any
      (fun a => a.student == s && a.job_id == j) = false)
    (hjob : db.job_posts.find? (fun x => x.id == j) = none) :
    apply_to_job s j rp cl sk now db = ((false, "Job not found."), db) := by
  simp [apply_to_job, hs, hj, hdup, hjob]

/-- With no duplicate and an inactive job, apply fails with the closed
error. -/
theorem apply_to_job_inactive (db : DB) (s : String) (j : Nat)
    (rp cl sk now : String) (jb : JobPost) (hs : s ≠ "") (hj : j ≠ 0)
    (hdup : db.applications.any
      (fun a => a.student == s && a.job_id == j) = false)
    (hjob : db.job_posts.find? (fun x => x.id == j) = some jb)
    (hst : jb.status ≠ "Active") :
    apply_to_job s j rp cl sk now db =
      ((false, "This job is no longer accepting applications."), db) := by
  simp [apply_to_job, hs, hj, hdup, hjob, hst]

/-- With no duplicate and an active job, apply succeeds and appends
the new Pending row. -/
theorem apply_to_job_success (db : DB) (s : String) (j : Nat)
    (rp cl sk now : String) (jb : JobPost) (hs : s ≠ "") (hj : j ≠ 0)
    (hdup : db.applications.any
      (fun a => a.student == s && a.job_id == j) = false)
    (hjob : db.job_posts.find? (fun x => x.id == j) = some jb)
    (hst : jb.status = "Active") :
    apply_to_job s j rp cl sk now db =
      ((true, "Application submitted successfully!"),
       { db with
         applications := db.applications ++
           [newApplication db.next_app_id s j rp cl sk now],
         next_app_id := db.next_app_id + 1 }) := by
  simp [apply_to_job, hs, hj, hdup, hjob, hst]

/-- Claim C3: apply checks its preconditions in order — an existing
application for the pair wins (even when the job is absent or
inactive), then a missing job, then an inactive job; otherwise it
inserts a Pending application stamped with now. -/
theorem apply_checks_in_order (db : DB) (s : String) (j : Nat)
    (rp cl sk now : String) (hs : s ≠ "") (hj : j ≠ 0) :
    (db.applications.any (fun a => a.student == s && a.job_id == j) = true →
      apply_to_job s j rp cl sk now db =
        ((false, "You have already applied for this job."), db))
    ∧ (db.applications.any (fun a => a.student == s && a.job_id == j) = false →
        get_job_by_id j db = none →
        apply_to_job s j rp cl sk now db = ((false, "Job not found."), db))
    ∧ (∀ jb,
        db.applications.any (fun a => a.student == s && a.job_id == j) = false →
        get_job_by_id j db = some jb → jb.status ≠ "Active" →
        apply_to_job s j rp cl sk now db =
          ((false, "This job is no longer accepting applications."), db))
    ∧ (∀ jb,
        db.applications.any (fun a => a.student == s && a.job_id == j) = false →
        get_job_by_id j db = some jb → jb.status = "Active" →
        apply_to_job s j rp cl sk now db =
          ((true, "Application submitted successfully!"),
           { db with
             applications := db.applications ++
               [newApplication db.next_app_id s j rp cl sk now],
             next_app_id := db.next_app_id + 1 })) :=
  ⟨fun hdup => apply_to_job_dup db s j rp cl sk now hs hj hdup,
   fun hdup hjob => apply_to_job_nojob db s j rp cl sk now hs hj hdup hjob,
   fun jb hdup hjob hst =>
     apply_to_job_inactive db s j rp cl sk now jb hs hj hdup hjob hst,
   fun jb hdup hjob hst =>
     apply_to_job_success db s j rp cl sk now jb hs hj hdup hjob hst⟩

/-- Witness for C3 at a concrete store: alice applying to the existing
active job 1 succeeds and appends the Pending row. -/
theorem apply_checks_in_order_witness :
    apply_to_job "alice" 1 "" "" "" "t2" dbJob =
      ((true, "Application submitted successfully!"),
       { dbJob with
         applications := dbJob.applications ++
           [newApplication dbJob.next_app_id "alice" 1 "" "" "" "t2"],
         next_app_id := dbJob.next_app_id + 1 }) :=
  (apply_checks_in_order dbJob "alice" 1 "" "" "" "t2" (by decide)
      (by decide)).2.2.2 internJob (by decide) (by decide) (by decide)

/-- Claim C1 (amended): update_application_status consults no actor and
performs no permission check; it succeeds whenever app_id names an
existing application, setting status, feedback, reviewed_at = now and
reviewed_by, and fails with the not-found error otherwise, leaving the
store unchanged. -/
theorem review_unrestricted (db : DB) (a : Nat) (st fb rb now : String) :
    (db.applications.any (fun x => x.id == a) = true →
      update_application_status a st fb rb now db =
        ((true, "Application status updated to " ++ st ++ "."),
         { db with
           applications :=
             db.applications.map (appSetReview a st fb rb now) }))
    ∧ (db.applications.any (fun x => x.id == a) = false →
        update_application_status a st fb rb now db =
          ((false, "Application not found."), db)) := by
  constructor
  · intro h
    simp [update_application_status, h]
  · intro h
    simp [update_application_status, h]

/-- The example application as evilco leaves it after its review. -/
def evilcoReviewedApp : Application :=
  { aliceApp with status := "Approved", feedback := some "ok",
                  reviewed_at := some "t3", reviewed_by := some "evilco" }

/-- Counterexample to Claim C1 as stated: evilco is a Company user that
does not own the job of application 1, yet the review succeeds and the
application row is modified. -/
theorem review_by_nonowner_succeeds :
    (update_application_status 1 "Approved" "ok" "evilco" "t3" dbReview).1.1
      = true
    ∧ (update_application_status 1 "Approved" "ok" "evilco" "t3"
        dbReview).2.applications = [evilcoReviewedApp]
    ∧ evilcoUser ∈ dbReview.users ∧ evilcoUser.role = "Company"
    ∧ internJob ∈ dbReview.job_posts ∧ internJob.id = aliceApp.job_id
    ∧ internJob.company ≠ evilcoUser.username := by
  refine ⟨by decide, by decide, by decide, by decide, by decide, by decide,
    by decide⟩

/-- Witness for C1 at a concrete store: reviewing the existing
application 1 succeeds, reviewing the absent application 9 fails with
the not-found error and leaves the store unchanged. -/
theorem review_unrestricted_witness :
    (update_application_status 1 "Approved" "ok" "acme" "t3" dbReview).1.1
      = true
    ∧ update_application_status 9 "Approved" "ok" "acme" "t3" dbReview =
        ((false, "Application not found."), dbReview) := by
  have h1 := (review_unrestricted dbReview 1 "Approved" "ok" "acme" "t3").1
    (by decide)
  have h2 := (review_unrestricted dbReview 9 "Approved" "ok" "acme" "t3").2
    (by decide)
  exact ⟨by rw [h1], h2⟩

/-- Claim C2 (amended): update_job_status consults no actor and
performs no permission check; it succeeds whenever the id names an
existing job and fails with the not-found error otherwise, leaving the
store unchanged. -/
theorem job_status_unrestricted (db : DB) (j : Nat) (st : String) :
    (db.job_posts.any (fun x => x.id == j) = true →
      update_job_status j st db =
        ((true, "Job status updated to " ++ st ++ "."),
         { db with job_posts := db.job_posts.map (jobSetStatus j st) }))
    ∧ (db.job_posts.any (fun x => x.id == j) = false →
        update_job_status j st db = ((false, "Job not found."), db)) := by
  constructor
  · intro h
    simp [update_job_status, h]
  · intro h
    simp [update_job_status, h]

/-- Counterexample to Claim C2 as stated: in a store whose only user is
a Student and whose only job belongs to the absent company ghost, the
status change succeeds although no owning-company or Admin actor even
exists — the operation consults no actor at all. -/
theorem job_status_change_without_authorized_actor :
    (update_job_status 1 "Inactive" dbNoAuthority).1.1 = true
    ∧ (update_job_status 1 "Inactive" dbNoAuthority).2.job_posts =
        [{ internJob with company := "ghost", status := "Inactive" }]
    ∧ dbNoAuthority.users.all
        (fun u => u.role != "Admin" && u.username != "ghost") = true := by
  refine ⟨by decide, by decide, by decide⟩

/-- Witness for C2 at a concrete store: changing the status of the
existing job 1 succeeds, changing the absent job 9 fails with the
not-found error and leaves the store unchanged. -/
theorem job_status_unrestricted_witness :
    (update_job_status 1 "Inactive" dbJob).1.1 = true
    ∧ update_job_status 9 "Inactive" dbJob =
        ((false, "Job not found."), dbJob) := by
  have h1 := (job_status_unrestricted dbJob 1 "Inactive").1 (by decide)
  have h2 := (job_status_unrestricted dbJob 9 "Inactive").2 (by decide)
  exact ⟨by rw [h1], h2⟩

/-- Claim C9: whenever one of the mutating operations returns an error
result, the store after the call is exactly the store before it. -/
theorem errors_leave_store_unchanged (hash : String → String) (db : DB)
    (s : String) (j a : Nat)
    (rp cl sk st fb rb u p r e fn org now : String)
    (c t d loc jt dur sp req dl : String) :
    ((apply_to_job s j rp cl sk now db).1.1 = false →
      (apply_to_job s j rp cl sk now db).2 = db)
    ∧ ((update_application_status a st fb rb now db).1.1 = false →
        (update_application_status a st fb rb now db).2 = db)
    ∧ ((update_job_status j st db).1.1 = false →
        (update_job_status j st db).2 = db)
    ∧ ((register_user hash u p r e fn org now db).1.1 = false →
        (register_user hash u p r e fn org now db).2 = db)
    ∧ ((post_job c t d loc jt dur sp req dl now db).1.1 = false →
        (post_job c t d loc jt dur sp req dl now db).2 = db)
    ∧ ((authenticate_user hash u p now db).1.1 = none →
        (authenticate_user hash u p now db).2 = db) := by
  refine ⟨?_, ?_, ?_, ?_, ?_, ?_⟩ <;> intro h
  · by_cases h1 : s = "" ∨ j = 0
    · simp [apply_to_job, h1]
    · by_cases h2 : db.applications.any
          (fun x => x.student == s && x.job_id == j) = true
      · simp [apply_to_job, h1, h2]
      · rcases hf : db.job_posts.find? (fun jb => jb.id == j) with _ | jb
        · simp [apply_to_job, h1, h2, hf]
        · by_cases h3 : jb.status = "Active"
          · simp [apply_to_job, h1, h2, hf, h3] at h
          · simp [apply_to_job, h1, h2, hf, h3]
  · by_cases h1 : db.applications.any (fun x => x.id == a) = true
    · simp [update_application_status, h1] at h
    · simp [update_application_status, h1]
  · by_cases h1 : db.job_posts.any (fun x => x.id == j) = true
    · simp [update_job_status, h1] at h
    · simp [update_job_status, h1]
  · by_cases h1 : u = "" ∨ p = "" ∨ r = "" ∨ e = ""
    · simp [register_user, h1]
    · by_cases h2 : validate_email e = false
      · simp [register_user, h1, h2]
      · by_cases h3 : p.length < 8
        · simp [register_user, h1, h2, h3]
        · by_cases h4 : db.users.any (fun x => x.username == u) = true
          · simp [register_user, h1, h2, h3, h4]
          · by_cases h5 : db.users.any (fun x => x.email == e) = true
            · simp [register_user, h1, h2, h3, h4, h5]
            · simp [register_user, h1, h2, h3, h4, h5] at h
  · by_cases h1 : c = "" ∨ t = "" ∨ d = ""
    · simp [post_job, h1]
    · simp [post_job, h1] at h
  · by_cases h1 : u = "" ∨ p = ""
    · simp [authenticate_user, h1]
    · rcases hf : db.users.find? (fun x =>
        x.username == u && x.password_hash == hash p) with _ | v
      · simp [authenticate_user, h1, hf]
      · simp [authenticate_user, h1, hf] at h

/-- Witness for C9 at a concrete store: failing apply, review, job
status change, registration, job posting and authentication each
leave the store exactly as it was. -/
theorem errors_leave_store_unchanged_witness :
    (apply_to_job "alice" 7 "" "" "" "t9" dbJob).2 = dbJob
    ∧ (update_application_status 7 "Approved" "" "acme" "t9" dbJob).2 = dbJob
    ∧ (update_job_status 7 "Approved" dbJob).2 = dbJob
    ∧ (register_user sampleHash "alice" "wrongpass99" "Student" "a@x.com"
        "" "" "t9" dbJob).2 = dbJob
    ∧ (post_job "acme" "" "A role" "" "" "" "" "" "" "t9" dbJob).2 = dbJob
    ∧ (authenticate_user sampleHash "alice" "wrongpass99" "t9" dbJob).2
        = dbJob := by
  have h := errors_leave_store_unchanged sampleHash dbJob "alice" 7 7
    "" "" "" "Approved" "" "acme" "alice" "wrongpass99" "Student" "a@x.com"
    "" "" "t9" "acme" "" "A role" "" "" "" "" "" ""
  exact ⟨h.1 (by decide), h.2.1 (by decide), h.2.2.1 (by decide),
    h.2.2.2.1 (by decide), h.2.2.2.2.1 (by decide),
    h.2.2.2.2.2 (by decide)⟩

/-- Claim C10: neither review nor the job status change validates the
status string: any string is accepted and stored verbatim whenever the
id exists, regardless of the current (possibly terminal) status. -/
theorem status_values_not_validated (db : DB) (a j : Nat)
    (s s2 fb rb now : String) :
    (db.applications.any (fun x => x.id == a) = true →
      (update_application_status a s fb rb now db).1.1 = true ∧
      ∀ x ∈ (update_application_status a s fb rb now db).2.applications,
        x.id = a → x.status = s)
    ∧ (db.job_posts.any (fun x => x.id == j) = true →
        (update_job_status j s2 db).1.1 = true ∧
        ∀ x ∈ (update_job_status j s2 db).2.job_posts,
          x.id = j → x.status = s2) := by
  constructor
  · intro h
    refine ⟨by simp [update_application_status, h], ?_⟩
    intro x hx hid
    simp only [update_application_status, if_pos h] at hx
    rcases List.mem_map.1 hx with ⟨y, _, rfl⟩
    by_cases hy : (y.id == a) = true
    · simp [appSetReview, hy]
    · simp only [appSetReview, hy, Bool.false_eq_true, if_false] at hid
      exact absurd (by exact beq_iff_eq.2 hid) (by simpa using hy)
  · intro h
    refine ⟨by simp [update_job_status, h], ?_⟩
    intro x hx hid
    simp only [update_job_status, if_pos h] at hx
    rcases List.mem_map.1 hx with ⟨y, _, rfl⟩
    by_cases hy : (y.id == j) = true
    · simp [jobSetStatus, hy]
    · simp only [jobSetStatus, hy, Bool.false_eq_true, if_false] at hid
      exact absurd (by exact beq_iff_eq.2 hid) (by simpa using hy)

/-- An approved (terminal) variant of the example application. -/
def approvedApp : Application := { aliceApp with status := "Approved" }

/-- The example store with the application already in a terminal
status. -/
def dbApproved : DB := { dbReview with applications := [approvedApp] }

/-- Witness for C10 at a concrete store: an Approved application
accepts the out-of-enumeration status Banana, and the job accepts the
out-of-enumeration status Limbo. -/
theorem status_values_not_validated_witness :
    (update_application_status 1 "Banana" "" "acme" "t9" dbApproved).1.1
      = true
    ∧ (update_job_status 1 "Limbo" dbApproved).1.1 = true := by
  have h := status_values_not_validated dbApproved 1 1 "Banana" "Limbo"
    "" "acme" "t9"
  exact ⟨(h.1 (by decide)).1, (h.2 (by decide)).1⟩

/-- When the id names an existing job, the store after
update_job_status rewrites exactly the matching rows. -/
theorem update_job_status_found (db : DB) (j : Nat) (st : String)
    (h : db.job_posts.any (fun x => x.id == j) = true) :
    (update_job_status j st db).2 =
      { db with job_posts := db.job_posts.map (jobSetStatus j st) } := by
  unfold update_job_status
  rw [if_pos h]

/-- Applying the same status rewrite twice is the same as once. -/
theorem jobSetStatus_map_idem (j : Nat) (st : String) (l : List JobPost) :
    (l.map (jobSetStatus j st)).map (jobSetStatus j st) =
      l.map (jobSetStatus j st) := by
  rw [List.map_map]
  apply List.map_congr_left
  intro x _
  show jobSetStatus j st (jobSetStatus j st x) = jobSetStatus j st x
  by_cases hx : (x.id == j) = true
  · simp [jobSetStatus, hx]
  · simp [jobSetStatus, hx]

/-- The status rewrite keeps every id, so the existing id stays
present after the first call. -/
theorem jobSetStatus_map_any (db : DB) (j : Nat) (st : String)
    (h : db.job_posts.any (fun x => x.id == j) = true) :
    (DB.job_posts { db with
        job_posts := db.job_posts.map (jobSetStatus j st) }).any
      (fun x => x.id == j) = true := by
  rcases List.any_eq_true.1 h with ⟨x, hx, hid⟩
  refine List.any_eq_true.2 ⟨_, List.mem_map_of_mem _ hx, ?_⟩
  by_cases hxx : (x.id == j) = true
  · simp [jobSetStatus, hxx]
  · exact absurd hid (by simpa using hxx)

/-- Claim C8: setting the status of an existing job to Active twice
yields the same final store as doing it once, the job ends Active, and
the number of postings is unchanged by both calls. -/
theorem set_job_status_active_idempotent (db : DB) (j : Nat)
    (h : db.job_posts.any (fun x => x.id == j) = true) :
    (update_job_status j "Active"
        (update_job_status j "Active" db).2).2 =
      (update_job_status j "Active" db).2
    ∧ (∀ x ∈ (update_job_status j "Active" db).2.job_posts,
        x.id = j → x.status = "Active")
    ∧ (update_job_status j "Active" db).2.job_posts.length =
        db.job_posts.length
    ∧ (update_job_status j "Active"
        (update_job_status j "Active" db).2).2.job_posts.length =
        db.job_posts.length := by
  have hany := jobSetStatus_map_any db j "Active" h
  have e1 := update_job_status_found db j "Active" h
  have e2 := update_job_status_found
    { db with job_posts := db.job_posts.map (jobSetStatus j "Active") }
    j "Active" hany
  refine ⟨?_, ?_, ?_, ?_⟩
  · rw [e1, e2]
    exact congrArg (fun l => { db with job_posts := l })
      (jobSetStatus_map_idem j "Active" db.job_posts)
  · intro x hx hid
    rw [e1] at hx
    simp only [List.mem_map] at hx
    rcases hx with ⟨y, _, rfl⟩
    by_cases hy : (y.id == j) = true
    · simp [jobSetStatus, hy]
    · simp only [jobSetStatus, hy, Bool.false_eq_true, if_false] at hid
      exact absurd (by exact beq_iff_eq.2 hid) (by simpa using hy)
  · rw [e1]
    simp
  · rw [e1, e2]
    simp

/-- Witness for C8 at a concrete store: activating job 1 twice equals
activating it once, and the posting count stays at one. -/
theorem set_job_status_active_idempotent_witness :
    (update_job_status 1 "Active"
        (update_job_status 1 "Active" dbJob).2).2 =
      (update_job_status 1 "Active" dbJob).2
    ∧ (update_job_status 1 "Active" dbJob).2.job_posts.length =
        dbJob.job_posts.length := by
  have h := set_job_status_active_idempotent dbJob 1 (by decide)
  exact ⟨h.1, h.2.2.1⟩

/-- The user row persisted by a successful registration. -/
def newUser (hash : String → String)
    (username password role email full_name organization now : String) :
    User :=
  { username := username, password_hash := hash password, role := role,
    email := email, full_name := full_name, organization := organization,
    created_at := now, last_login := none }

/-- Claim C7: registration rejects missing fields, a malformed email
and a short password with the validation messages, rejects a taken
username or email with the duplicate messages, and otherwise persists
a user whose stored password field is the hash of the password, not
the plaintext. -/
theorem register_validation (hash : String → String) (db : DB)
    (u p r e fn org now : String) :
    ((u = "" ∨ p = "" ∨ r = "" ∨ e = "") →
      register_user hash u p r e fn org now db =
        ((false, "All required fields must be filled."), db))
    ∧ (¬(u = "" ∨ p = "" ∨ r = "" ∨ e = "") → validate_email e = false →
        register_user hash u p r e fn org now db =
          ((false, "Please enter a valid email address."), db))
    ∧ (¬(u = "" ∨ p = "" ∨ r = "" ∨ e = "") → validate_email e = true →
        p.length < 8 →
        register_user hash u p r e fn org now db =
          ((false, "Password must be at least 8 characters long."), db))
    ∧ (¬(u = "" ∨ p = "" ∨ r = "" ∨ e = "") → validate_email e = true →
        ¬p.length < 8 →
        db.users.any (fun x => x.username == u) = true →
        register_user hash u p r e fn org now db =
          ((false, "Username already exists."), db))
    ∧ (¬(u = "" ∨ p = "" ∨ r = "" ∨ e = "") → validate_email e = true →
        ¬p.length < 8 →
        db.users.any (fun x => x.username == u) = false →
        db.users.any (fun x => x.email == e) = true →
        register_user hash u p r e fn org now db =
          ((false, "Email already registered."), db))
    ∧ (¬(u = "" ∨ p = "" ∨ r = "" ∨ e = "") → validate_email e = true →
        ¬p.length < 8 →
        db.users.any (fun x => x.username == u) = false →
        db.users.any (fun x => x.email == e) = false →
        register_user hash u p r e fn org now db =
          ((true, "Registration successful! You can now log in."),
           { db with users := db.users ++ [newUser hash u p r e fn org now] })
        ∧ (newUser hash u p r e fn org now).password_hash = hash p) := by
  refine ⟨?_, ?_, ?_, ?_, ?_, ?_⟩
  · intro h1
    simp [register_user, h1]
  · intro h1 h2
    simp [register_user, h1, h2]
  · intro h1 h2 h3
    simp [register_user, h1, h2, h3]
  · intro h1 h2 h3 h4
    simp [register_user, h1, h2, h3, h4]
  · intro h1 h2 h3 h4 h5
    simp [register_user, h1, h2, h3, h4, h5]
  · intro h1 h2 h3 h4 h5
    exact ⟨by simp [register_user, newUser, h1, h2, h3, h4, h5], rfl⟩

/-- Witness for C7 at a concrete store: registering bob with a valid
email, a fresh username and an eight-plus character password succeeds
and stores the hashed password; registering alice again fails with the
duplicate-username message. -/
theorem register_validation_witness :
    register_user sampleHash "bob" "longenough9" "Student" "b@y.org" "" ""
        "t6" dbJob =
      ((true, "Registration successful! You can now log in."),
       { dbJob with users := dbJob.users ++
           [newUser sampleHash "bob" "longenough9" "Student" "b@y.org" ""
             "" "t6"] })
    ∧ register_user sampleHash "alice" "longenough9" "Student" "b@y.org"
        "" "" "t6" dbJob = ((false, "Username already exists."), dbJob) := by
  have h1 := ((register_validation sampleHash dbJob "bob" "longenough9"
    "Student" "b@y.org" "" "" "t6").2.2.2.2.2 (by decide) (by decide)
    (by decide) (by decide) (by decide)).1
  have h2 := (register_validation sampleHash dbJob "alice" "longenough9"
    "Student" "b@y.org" "" "" "t6").2.2.2.1 (by decide) (by decide)
    (by decide) (by decide)
  exact ⟨h1, h2⟩

/-- Counterexample to Claim C5 as stated: the successful login returns
the stored row itself, password hash included — the hash is not
excluded from the returned view. -/
theorem authenticate_returns_hash :
    (authenticate_user sampleHash "alice" "password123" "t5" dbJob).1.1 =
      some aliceUser
    ∧ aliceUser.password_hash = sampleHash "password123"
    ∧ sampleHash "password123" ≠ "" := by
  refine ⟨by decide, by decide, by decide⟩

/-- Two users of the store with the same username are the same row. -/
theorem username_inj (db : DB) (huniq : users_unique db) :
    ∀ x ∈ db.users, ∀ y ∈ db.users, x.username = y.username → x = y := by
  intro x hx y hy hxy
  by_contra hne
  exact List.Pairwise.forall (fun a b hab => fun hba => hab hba.symm)
    huniq hx hy hne hxy

/-- Claim C5 (amended): for a registered user, authentication succeeds
exactly when the hash of the supplied password equals the stored hash;
on success it sets last_login to now in the store and returns the full
stored row, fetched before the update and password hash included; on a
wrong password it fails and leaves the store unchanged. -/
theorem authenticate_correct (hash : String → String) (db : DB) (u : User)
    (p now : String) (huniq : users_unique db) (hmem : u ∈ db.users)
    (hname : u.username ≠ "") (hp : p ≠ "") :
    (hash p = u.password_hash →
      authenticate_user hash u.username p now db =
        ((some u, "Login successful."),
         { db with
           users := db.users.map (fun v =>
             if v.username == u.username then
               { v with last_login := some now }
             else v) }))
    ∧ (hash p ≠ u.password_hash →
        authenticate_user hash u.username p now db =
          ((none, "Invalid username or password."), db)) := by
  constructor
  · intro hok
    have hvu : (db.users.find? (fun x =>
        x.username == u.username && x.password_hash == hash p)).isSome := by
      refine List.find?_isSome.2 ⟨u, hmem, ?_⟩
      simp [hok]
    obtain ⟨v, hv⟩ := Option.isSome_iff_exists.1 hvu
    have hvp := List.find?_some hv
    have hvm := List.mem_of_find?_eq_some hv
    have hvname : v.username = u.username := by
      have h := hvp
      rw [Bool.and_eq_true] at h
      exact beq_iff_eq.1 h.1
    have hveq : v = u := username_inj db huniq v hvm u hmem hvname
    subst hveq
    simp [authenticate_user, hname, hp, hv]
  · intro hbad
    have hfind : db.users.find? (fun x =>
        x.username == u.username && x.password_hash == hash p) = none := by
      refine List.find?_eq_none.2 ?_
      intro x hx hcontra
      rw [Bool.and_eq_true] at hcontra
      have hxname : x.username = u.username := beq_iff_eq.1 hcontra.1
      have hxu : x = u := username_inj db huniq x hx u hmem hxname
      subst hxu
      exact hbad (beq_iff_eq.1 hcontra.2).symm
    simp [authenticate_user, hname, hp, hfind]

/-- Witness for C5 at a concrete store: alice with the right password
logs in, receives her stored row and gets last_login set; with a wrong
password the login fails and the store is unchanged. -/
theorem authenticate_correct_witness :
    authenticate_user sampleHash "alice" "password123" "t5" dbJob =
      ((some aliceUser, "Login successful."),
       { dbJob with
         users := dbJob.users.map (fun v =>
           if v.username == "alice" then { v with last_login := some "t5" }
           else v) })
    ∧ authenticate_user sampleHash "alice" "wrongpass99" "t5" dbJob =
        ((none, "Invalid username or password."), dbJob) := by
  have h1 := (authenticate_correct sampleHash dbJob aliceUser "password123"
    "t5" (by unfold users_unique; decide) (by decide) (by decide)
    (by decide)).1 (by decide)
  have h2 := (authenticate_correct sampleHash dbJob aliceUser "wrongpass99"
    "t5" (by unfold users_unique; decide) (by decide) (by decide)
    (by decide)).2 (by decide)
  exact ⟨h1, h2⟩

/-- On the default status Active without a company, the WHERE clause
keeps exactly the Active rows. -/
theorem jobRowFilter_none_active (db : DB) :
    jobRowFilter none "Active" db =
      db.job_posts.filter (fun j => j.status == "Active") := by
  have hAA : (("Active" : String) == "All") = false := by decide
  show db.job_posts.filter
      (fun j => j.status == "Active" || ("Active" : String) == "All") = _
  exact List.filter_congr (fun j _ => by simp [hAA])

/-- On the default status Active with a nonempty company, the WHERE
clause keeps exactly that company's Active rows. -/
theorem jobRowFilter_some_active (db : DB) (c : String) (hc : c ≠ "") :
    jobRowFilter (some c) "Active" db =
      db.job_posts.filter (fun j =>
        j.company == c && j.status == "Active") := by
  have hAA : (("Active" : String) == "All") = false := by decide
  dsimp only [jobRowFilter]
  rw [if_neg hc]
  exact List.filter_congr (fun j _ => by simp [hAA])

/-- On the sentinel All without a company, the WHERE clause keeps
every row. -/
theorem jobRowFilter_none_all (db : DB) :
    jobRowFilter none "All" db = db.job_posts := by
  show db.job_posts.filter
      (fun j => j.status == "All" || ("All" : String) == "All") = _
  rw [List.filter_congr (fun j _ => by
    simp : ∀ j ∈ db.job_posts,
      (j.status == "All" || ("All" : String) == "All") =
        (fun _ : JobPost => true) j)]
  exact List.filter_true db.job_posts

/-- On the sentinel All with a nonempty company, the WHERE clause
keeps exactly that company's rows, of every status. -/
theorem jobRowFilter_some_all (db : DB) (c : String) (hc : c ≠ "") :
    jobRowFilter (some c) "All" db =
      db.job_posts.filter (fun j => j.company == c) := by
  dsimp only [jobRowFilter]
  rw [if_neg hc]
  exact List.filter_congr (fun j _ => by simp)

/-- Claim C6: with the status argument omitted, get_jobs returns
exactly the Active postings (of the given company when one is
supplied); with the sentinel All it returns postings of every status;
in all cases the result is ordered by posted_at descending. -/
theorem get_jobs_filter_and_order (db : DB) (c : String) (hc : c ≠ "") :
    ((get_jobs_default none db).Perm
        (db.job_posts.filter (fun j => j.status == "Active"))
      ∧ List.Sorted postedDesc (get_jobs_default none db))
    ∧ ((get_jobs_default (some c) db).Perm
        (db.job_posts.filter (fun j =>
          j.company == c && j.status == "Active"))
      ∧ List.Sorted postedDesc (get_jobs_default (some c) db))
    ∧ ((get_jobs none "All" db).Perm db.job_posts
      ∧ List.Sorted postedDesc (get_jobs none "All" db))
    ∧ ((get_jobs (some c) "All" db).Perm
        (db.job_posts.filter (fun j => j.company == c))
      ∧ List.Sorted postedDesc (get_jobs (some c) "All" db)) := by
  refine ⟨⟨?_, ?_⟩, ⟨?_, ?_⟩, ⟨?_, ?_⟩, ⟨?_, ?_⟩⟩
  · exact jobRowFilter_none_active db ▸
      List.perm_insertionSort postedDesc (jobRowFilter none "Active" db)
  · exact List.sorted_insertionSort postedDesc (jobRowFilter none "Active" db)
  · exact jobRowFilter_some_active db c hc ▸
      List.perm_insertionSort postedDesc (jobRowFilter (some c) "Active" db)
  · exact List.sorted_insertionSort postedDesc
      (jobRowFilter (some c) "Active" db)
  · exact jobRowFilter_none_all db ▸
      List.perm_insertionSort postedDesc (jobRowFilter none "All" db)
  · exact List.sorted_insertionSort postedDesc (jobRowFilter none "All" db)
  · exact jobRowFilter_some_all db c hc ▸
      List.perm_insertionSort postedDesc (jobRowFilter (some c) "All" db)
  · exact List.sorted_insertionSort postedDesc (jobRowFilter (some c) "All" db)

/-- Witness for C6 at a concrete store: the default listing for acme
is a permutation of the Active acme rows, and the All listing of the
whole store is a permutation of all rows and sorted. -/
theorem get_jobs_filter_and_order_witness :
    (get_jobs_default (some "acme") dbJob).Perm
      (dbJob.job_posts.filter (fun j =>
        j.company == "acme" && j.status == "Active"))
    ∧ (get_jobs none "All" dbJob).Perm dbJob.job_posts
    ∧ List.Sorted postedDesc (get_jobs none "All" dbJob) := by
  have h := get_jobs_filter_and_order dbJob "acme" (by decide)
  exact ⟨h.2.1.1, h.2.2.1.1, h.2.2.1.2⟩

/-- One registration leaves the applications table untouched. -/
theorem register_user_apps (hash : String → String)
    (u p r e fn org now : String) (db : DB) :
    (register_user hash u p r e fn org now db).2.applications =
      db.applications := by
  unfold register_user
  repeat' split
  all_goals rfl

/-- One authentication leaves the applications table untouched. -/
theorem authenticate_user_apps (hash : String → String)
    (u p now : String) (db : DB) :
    (authenticate_user hash u p now db).2.applications =
      db.applications := by
  unfold authenticate_user
  repeat' split
  all_goals rfl

/-- Posting a job leaves the applications table untouched. -/
theorem post_job_apps (c t d loc jt dur sp req dl now : String) (db : DB) :
    (post_job c t d loc jt dur sp req dl now db).2.applications =
      db.applications := by
  unfold post_job
  repeat' split
  all_goals rfl

/-- A job status change leaves the applications table untouched. -/
theorem update_job_status_apps (j : Nat) (st : String) (db : DB) :
    (update_job_status j st db).2.applications = db.applications := by
  unfold update_job_status
  repeat' split
  all_goals rfl

/-- The review row transformer keeps the student field. -/
theorem appSetReview_student (a : Nat) (st fb rb now : String)
    (x : Application) :
    (appSetReview a st fb rb now x).student = x.student := by
  unfold appSetReview
  split <;> rfl

/-- The review row transformer keeps the job_id field. -/
theorem appSetReview_job_id (a : Nat) (st fb rb now : String)
    (x : Application) :
    (appSetReview a st fb rb now x).job_id = x.job_id := by
  unfold appSetReview
  split <;> rfl

/-- The review row transformer preserves distinctness of the
(student, job_id) pairs. -/
theorem appSetReview_pairs (a : Nat) (st fb rb now : String)
    (l : List Application)
    (h : l.Pairwise (fun x y =>
      ¬(x.student = y.student ∧ x.job_id = y.job_id))) :
    (l.map (appSetReview a st fb rb now)).Pairwise (fun x y =>
      ¬(x.student = y.student ∧ x.job_id = y.job_id)) := by
  refine h.map _ ?_
  intro x y hxy hcontra
  apply hxy
  rw [appSetReview_student, appSetReview_student, appSetReview_job_id,
    appSetReview_job_id] at hcontra
  exact hcontra

/-- A review preserves the at-most-one-application invariant. -/
theorem update_application_status_pairs (a : Nat) (st fb rb now : String)
    (db : DB) (h : apps_unique db) :
    apps_unique (update_application_status a st fb rb now db).2 := by
  unfold apps_unique at h ⊢
  unfold update_application_status
  split
  · exact appSetReview_pairs a st fb rb now db.applications h
  · exact h

/-- Every store reachable through the domain operations keeps at most
one application per (student, job_id) pair. -/
theorem reachable_apps_unique (hash : String → String) (db : DB)
    (h : Reachable hash db) : apps_unique db := by
  induction h with
  | init now =>
    unfold apps_unique init_db
    exact List.Pairwise.nil
  | register u p r e fn org now db hdb ih =>
    unfold apps_unique at ih ⊢
    rw [register_user_apps]
    exact ih
  | auth u p now db hdb ih =>
    unfold apps_unique at ih ⊢
    rw [authenticate_user_apps]
    exact ih
  | post c t d loc jt dur sp req dl now db hdb ih =>
    unfold apps_unique at ih ⊢
    rw [post_job_apps]
    exact ih
  | applyJob s j rp cl sk now db hdb ih =>
    by_cases h1 : s = "" ∨ j = 0
    · unfold apps_unique at ih ⊢
      simp only [apply_to_job, if_pos h1]
      exact ih
    · push_neg at h1
      by_cases h2 : db.applications.any
          (fun x => x.student == s && x.job_id == j) = true
      · unfold apps_unique at ih ⊢
        rw [apply_to_job_dup db s j rp cl sk now h1.1 h1.2 h2]
        exact ih
      · have h2f : db.applications.any
            (fun x => x.student == s && x.job_id == j) = false := by
          simpa using h2
        rcases hf : db.job_posts.find? (fun x => x.id == j) with _ | jb
        · unfold apps_unique at ih ⊢
          rw [apply_to_job_nojob db s j rp cl sk now h1.1 h1.2 h2f hf]
          exact ih
        · by_cases h3 : jb.status = "Active"
          · unfold apps_unique at ih ⊢
            rw [apply_to_job_success db s j rp cl sk now jb h1.1 h1.2 h2f
              hf h3]
            show (db.applications ++
              [newApplication db.next_app_id s j rp cl sk now]).Pairwise _
            refine List.pairwise_append.2
              ⟨ih, List.pairwise_singleton _ _, ?_⟩
            intro x hx b hb
            simp only [List.mem_singleton] at hb
            subst hb
            intro hcontra
            have hpx : (fun y => y.student == s && y.job_id == j) x = true := by
              have hs2 : x.student = s := by
                simpa [newApplication] using hcontra.1
              have hj2 : x.job_id = j := by
                simpa [newApplication] using hcontra.2
              simp [hs2, hj2]
            have hany : db.applications.any
                (fun y => y.student == s && y.job_id == j) = true :=
              List.any_eq_true.2 ⟨x, hx, hpx⟩
            rw [h2f] at hany
            cases hany
          · unfold apps_unique at ih ⊢
            rw [apply_to_job_inactive db s j rp cl sk now jb h1.1 h1.2 h2f
              hf h3]
            exact ih
  | review a st fb rb now db hdb ih =>
    exact update_application_status_pairs a st fb rb now db ih
  | jobStatus j st db hdb ih =>
    unfold apps_unique at ih ⊢
    rw [update_job_status_apps]
    exact ih

/-- Claim C4: every reachable store has at most one application per
(student, job_id) pair, and a second apply of the same pair right
after a successful one fails with the already-applied error, leaves
the store unchanged and leaves exactly one row for the pair. -/
theorem at_most_one_application_per_pair (hash : String → String)
    (db : DB) (h : Reachable hash db) :
    apps_unique db
    ∧ ∀ s j rp cl sk now rp2 cl2 sk2 now2,
        (apply_to_job s j rp cl sk now db).1.1 = true →
        apply_to_job s j rp2 cl2 sk2 now2
            (apply_to_job s j rp cl sk now db).2 =
          ((false, "You have already applied for this job."),
           (apply_to_job s j rp cl sk now db).2)
        ∧ (apply_to_job s j rp cl sk now db).2.applications.countP
            (fun x => x.student == s && x.job_id == j) = 1 := by
  refine ⟨reachable_apps_unique hash db h, ?_⟩
  intro s j rp cl sk now rp2 cl2 sk2 now2 hsucc
  by_cases h1 : s = "" ∨ j = 0
  · simp [apply_to_job, if_pos h1] at hsucc
  · push_neg at h1
    by_cases h2 : db.applications.any
        (fun x => x.student == s && x.job_id == j) = true
    · rw [apply_to_job_dup db s j rp cl sk now h1.1 h1.2 h2] at hsucc
      simp at hsucc
    · have h2f : db.applications.any
          (fun x => x.student == s && x.job_id == j) = false := by
        simpa using h2
      rcases hf : db.job_posts.find? (fun x => x.id == j) with _ | jb
      · rw [apply_to_job_nojob db s j rp cl sk now h1.1 h1.2 h2f hf] at hsucc
        simp at hsucc
      · by_cases h3 : jb.status = "Active"
        · have he := apply_to_job_success db s j rp cl sk now jb h1.1 h1.2
            h2f hf h3
          rw [he]
          constructor
          · apply apply_to_job_dup _ s j rp2 cl2 sk2 now2 h1.1 h1.2
            refine List.any_eq_true.2
              ⟨newApplication db.next_app_id s j rp cl sk now, ?_, ?_⟩
            · show newApplication db.next_app_id s j rp cl sk now ∈
                db.applications ++
                  [newApplication db.next_app_id s j rp cl sk now]
              simp
            · simp [newApplication]
          · show (db.applications ++
              [newApplication db.next_app_id s j rp cl sk now]).countP
                (fun x => x.student == s && x.job_id == j) = 1
            rw [List.countP_append]
            have hz : db.applications.countP
                (fun x => x.student == s && x.job_id == j) = 0 := by
              refine List.countP_eq_zero.2 ?_
              intro x hx
              exact List.any_eq_false.1 h2f x hx
            rw [hz, List.countP_cons]
            simp [newApplication]
        · rw [apply_to_job_inactive db s j rp cl sk now jb h1.1 h1.2 h2f
            hf h3] at hsucc
          simp at hsucc

/-- A concrete reachable store: init_db, then acme posts the job. -/
def dbPosted : DB :=
  (post_job "acme" "Intern" "Internship role" "" "" "" "" "" "" "t1"
    (init_db sampleHash "t0")).2

/-- Witness for C4 at a concrete reachable store: after alice applies
to job 1, applying again fails with the already-applied error and the
store holds exactly one row for the pair. -/
theorem at_most_one_application_per_pair_witness :
    apps_unique dbPosted
    ∧ apply_to_job "alice" 1 "" "" "" "t3"
        (apply_to_job "alice" 1 "" "" "" "t2" dbPosted).2 =
        ((false, "You have already applied for this job."),
         (apply_to_job "alice" 1 "" "" "" "t2" dbPosted).2)
    ∧ (apply_to_job "alice" 1 "" "" "" "t2" dbPosted).2.applications.countP
        (fun x => x.student == "alice" && x.job_id == 1) = 1 := by
  have hre : Reachable sampleHash dbPosted :=
    Reachable.post "acme" "Intern" "Internship role" "" "" "" "" "" "" "t1"
      (init_db sampleHash "t0") (Reachable.init "t0")
  have h := at_most_one_application_per_pair sampleHash dbPosted hre
  have h2 := h.2 "alice" 1 "" "" "" "t2" "" "" "" "t3" (by decide)
  exact ⟨h.1, h2.1, h2.2⟩

end PHDCCI
